import Mathlib

/-!
Shallow embedding of `buildozer/targets/android.py` (the Android target of
buildozer): the install/version-resolution workflow, the persisted install
cache, NDK archive naming, the python-for-android checkout manager, device
serial resolution, and the release-mode/signing-environment helpers.

Subprocess invocations, filesystem probes and environment lookups are
modelled as oracle values supplied through explicit environment structures;
effectful operations (downloads, extractions, renames, git commands,
sdkmanager calls) are recorded in an explicit trace so that "performs no
work" statements are expressible.  Python exceptions are modelled with
`Except PyErr`.  Informational log lines are not modelled; error-level log
lines that the verified properties talk about are recorded in the traces.
-/

/-- Python exceptions that the embedded code can raise. -/
inductive PyErr where
  | indexError
  | assertionError
  | attributeError
  | buildozerException
  | systemError (msg : String)
  | cmdError
  deriving Repr, DecidableEq

/-! ## String primitives

Lean core's `String` functions (`splitOn`, `startsWith`, `trim`, `replace`,
...) are compiled by well-founded recursion and do not evaluate inside the
kernel; the structural equivalents below, over `String.data`, implement the
Python string operations the source uses. -/

/-- Whether `pat` begins the character list (Python `str.startswith`). -/
def beginsWith : List Char → List Char → Bool
  | _, [] => true
  | [], _ :: _ => false
  | c :: cs, p :: ps => c = p && beginsWith cs ps

/-- Python `s.startswith(pat)`. -/
def strStartsWith (s pat : String) : Bool :=
  beginsWith s.data pat.data

/-- Python `s.split(sep)` for a one-character separator: split at every
occurrence, keeping empty pieces (so `"".split(sep) == ['']`). -/
def splitOnChar (sep : Char) : List Char → List (List Char)
  | [] => [[]]
  | c :: cs =>
    if c = sep then [] :: splitOnChar sep cs
    else
      match splitOnChar sep cs with
      | [] => [[c]]
      | p :: ps => (c :: p) :: ps

/-- Split at every character satisfying `p`, keeping empty pieces. -/
def splitWhenChar (p : Char → Bool) : List Char → List (List Char)
  | [] => [[]]
  | c :: cs =>
    if p c then [] :: splitWhenChar p cs
    else
      match splitWhenChar p cs with
      | [] => [[c]]
      | q :: qs => (c :: q) :: qs

/-- Python `s.split()` (no argument): maximal whitespace-free fields, with
empty pieces dropped. -/
def whitespaceFields (cs : List Char) : List (List Char) :=
  (splitWhenChar Char.isWhitespace cs).filter (fun f => f ≠ [])

/-- Python `s.strip()`. -/
def trimChars (cs : List Char) : List Char :=
  ((cs.dropWhile Char.isWhitespace).reverse.dropWhile Char.isWhitespace).reverse

/-- Numeric value of a digit run. -/
def digitsToNat (cs : List Char) : Nat :=
  cs.foldl (fun n c => n * 10 + (c.toNat - 48)) 0

/-- Python `int(s)` on a version component: defined exactly when the
component is a nonempty digit string. -/
def parseNatL (cs : List Char) : Option Nat :=
  if cs ≠ [] ∧ cs.all Char.isDigit then some (digitsToNat cs) else none

/-- Worker for `strReplace`; `fuel` bounds the number of examined
characters (the pattern, when it matches, consumes at least one). -/
def replaceListAux (pat repl : List Char) : Nat → List Char → List Char
  | _, [] => []
  | 0, cs => cs
  | fuel + 1, c :: cs =>
    if beginsWith (c :: cs) pat then
      repl ++ replaceListAux pat repl fuel ((c :: cs).drop pat.length)
    else
      c :: replaceListAux pat repl fuel cs

/-- Python `s.replace(pat, repl)` (all occurrences) for a nonempty
pattern. -/
def strReplace (s pat repl : String) : String :=
  if pat.data = [] then s
  else ⟨replaceListAux pat.data repl.data s.data.length s.data⟩

/-! ## Versions

`buildozer.libs.version.parse` is imported by `android.py` but its module is
not part of the sources under verification. -/

/-- Modelled from the spec: `buildozer.libs.version.parse` is not among the
source files; per the spec, build-tools versions are "semantic versions"
compared by "standard dotted/numeric ordering".  A version is the list of
its dotted numeric components; a string with a non-numeric component does
not parse. -/
def parseNatVersion (cs : List Char) : Option (List Nat) :=
  (splitOnChar '.' cs).mapM parseNatL

/-- `parse` on a string. -/
def parseVersion (s : String) : Option (List Nat) :=
  parseNatVersion s.data

/-- Strict lexicographic order on dotted numeric versions (a shorter version
is smaller than any extension of it, as for Python list comparison). -/
def verLt : List Nat → List Nat → Bool
  | [], [] => false
  | [], _ :: _ => true
  | _ :: _, [] => false
  | a :: as, b :: bs => if a < b then true else if b < a then false else verLt as bs

/-- Insert into an ascending list, keeping it ascending (w.r.t. `verLt`). -/
def insertV (x : List Nat) : List (List Nat) → List (List Nat)
  | [] => [x]
  | y :: ys => if verLt x y then x :: y :: ys else y :: insertV x ys

/-- Insertion sort, ascending w.r.t. `verLt`; Python's `sorted`. -/
def sortV (xs : List (List Nat)) : List (List Nat) :=
  xs.foldr insertV []

/-- Python's `sorted(xs)[-1]`: the last element of the sorted list, raising
`IndexError` on an empty list. -/
def sortedLast (xs : List (List Nat)) : Except PyErr (List Nat) :=
  match (sortV xs).getLast? with
  | none => .error .indexError
  | some v => .ok v

/-- Maximum of a nonempty version list (`max(versions)`), with the head as
the starting accumulator. -/
def maxVer (x : List Nat) (xs : List (List Nat)) : List Nat :=
  xs.foldl (fun a b => if verLt a b then b else a) x

/-- Render a version back to its dotted form (`str(version)`), used only to
build sdkmanager argument strings recorded in traces. -/
def verToString (v : List Nat) : String :=
  String.intercalate "." (v.map toString)

/-! ## Host platform

`android.py` branches on `sys.platform` via the tests `platform in
('win32', 'cygwin')`, `platform == 'darwin'`, `platform.startswith('linux')`
and `platform.startswith('freebsd')`; the inductive below has one
constructor per equivalence class of those tests. -/

/-- The host platform classes distinguished by `android.py`. -/
inductive HostPlatform where
  | win32
  | cygwin
  | darwin
  | linux
  | freebsd
  | other (s : String)
  deriving Repr, DecidableEq

/-! ## Release mode and the signing environment (lines 984-1001) -/

/-- `TargetAndroid.check_p4a_sign_env` (lines 990-1001): fold over the four
`P4A_RELEASE_*` key suffixes, clearing the flag whenever one is missing from
the process environment (`envHas` is presence in `os.environ`; the `error`
parameter only controls logging and is not modelled). -/
def check_p4a_sign_env (envHas : String → Bool) : Bool :=
  let keys := ["KEYALIAS", "KEYSTORE_PASSWD", "KEYSTORE", "KEYALIAS_PASSWD"]
  keys.foldl
    (fun check key =>
      if !(envHas ("P4A_RELEASE_" ++ key)) then false else check)
    true

/-- `TargetAndroid.get_release_mode` (lines 984-988). -/
def get_release_mode (envHas : String → Bool) (artifact_format : String) : String :=
  if check_p4a_sign_env envHas || ["aab", "aar"].contains artifact_format then
    "release"
  else
    "release-unsigned"

/-! ## Device serial resolution (`serials` property, lines 1416-1436) -/

/-- The first whitespace-separated field of a line, Python's
`line.split()[0]` (`none` when the line has no field, where Python raises
`IndexError`). -/
def firstField (s : String) : Option String :=
  (whitespaceFields s.data).head?.map (fun f => String.mk f)

/-- The loop of `serials` (lines 1428-1434): keep the first field of every
line of `adb devices` output that is nonempty and starts with neither `*`
nor `List `; a kept line with no field raises `IndexError`. -/
def collectSerials : List String → Except PyErr (List String)
  | [] => .ok []
  | line :: rest =>
    if line = "" then
      collectSerials rest
    else if strStartsWith line "*" || strStartsWith line "List " then
      collectSerials rest
    else
      match firstField line with
      | none => .error .indexError
      | some f => (collectSerials rest).map (fun tl => f :: tl)

/-- Oracle inputs of one evaluation of the `serials` property. -/
structure SerialsEnv where
  /-- `environ.get('ANDROID_SERIAL')`: `none` when unset. -/
  android_serial : Option String
  /-- Result of `adb ... devices`: its stdout lines, or the exception the
  command raised. -/
  adb_devices : Except PyErr (List String)

/-- One evaluation of the `serials` property (lines 1416-1436).
`cached` is the prior `self._serials`.  Returns the produced value, the new
`self._serials`, and whether the device bridge was invoked. -/
def serialsRun (cached : Option (List String)) (env : SerialsEnv) :
    Except PyErr (List String) × Option (List String) × Bool :=
  match cached with
  | some s => (.ok s, cached, false)
  | none =>
    let enumerate : Except PyErr (List String) × Option (List String) × Bool :=
      match env.adb_devices with
      | .error e => (.error e, none, true)
      | .ok lines =>
        match collectSerials lines with
        | .error e => (.error e, none, true)
        | .ok serials => (.ok serials, some serials, true)
    match env.android_serial with
    | some serial =>
      -- `if serial:`: Python truthiness, so the empty string falls through
      if serial ≠ "" then
        (.ok ((splitOnChar ',' serial.data).map String.mk), none, false)
      else enumerate
    | none => enumerate

/-! ## Installers (`_install_apache_ant`, `_install_android_sdk`,
`_install_android_ndk`, lines 355-477) -/

/-- Effectful installer operations, recorded in traces. -/
inductive InstAction where
  | makedirs (dir : String)
  | download (url archive : String)
  | extract (archive : String)
  | rename (src dst : String)
  deriving Repr, DecidableEq

/-- Oracles for an installer run: the filesystem presence probe and the
outcomes of the effectful `buildops` operations. -/
structure InstallerEnv where
  fs_exists : String → Bool
  download : String → String → Except PyErr Unit
  extract : String → Except PyErr Unit
  rename : String → String → Except PyErr Unit

/-- Record one effectful installer operation; on failure the raised
exception propagates, on success continue with `k`. -/
def instStep (act : InstAction) (res : Except PyErr Unit)
    (k : Except PyErr String × List InstAction) :
    Except PyErr String × List InstAction :=
  match res with
  | .error e => (.error e, [act])
  | .ok _ => (k.1, act :: k.2)

/-- `APACHE_ANT_VERSION` (line 15). -/
def APACHE_ANT_VERSION : String := "1.9.4"

/-- `DEFAULT_SDK_TAG` (line 53). -/
def DEFAULT_SDK_TAG : String := "6514223"

/-- `TargetAndroid._install_apache_ant` (lines 355-376): return the Ant
directory at once when it exists, else create it, download the Ant binary
archive and extract it. -/
def _install_apache_ant (env : InstallerEnv) (ant_dir : String) :
    Except PyErr String × List InstAction :=
  if env.fs_exists ant_dir then
    (.ok ant_dir, [])
  else
    let archive := "apache-ant-" ++ APACHE_ANT_VERSION ++ "-bin.tar.gz"
    let url := "https://archive.apache.org/dist/ant/binaries/"
    let mk : List InstAction :=
      if !(env.fs_exists ant_dir) then [.makedirs ant_dir] else []
    let rest :=
      instStep (.download url archive) (env.download url archive) <|
      instStep (.extract archive) (env.extract archive) <|
      (.ok ant_dir, [])
    (rest.1, mk ++ rest.2)

/-- `TargetAndroid._install_android_sdk` (lines 378-411): return the SDK
directory at once when it exists, else pick the platform-specific
command-line-tools archive (raising `SystemError` on an unsupported host),
create the directory, download and extract. -/
def _install_android_sdk (env : InstallerEnv) (plat : HostPlatform)
    (sdk_dir : String) : Except PyErr String × List InstAction :=
  if env.fs_exists sdk_dir then
    (.ok sdk_dir, [])
  else
    let archive? : Except PyErr String :=
      match plat with
      | .win32 | .cygwin => .ok ("commandlinetools-win-" ++ DEFAULT_SDK_TAG ++ "_latest.zip")
      | .darwin => .ok ("commandlinetools-mac-" ++ DEFAULT_SDK_TAG ++ "_latest.zip")
      | .linux | .freebsd => .ok ("commandlinetools-linux-" ++ DEFAULT_SDK_TAG ++ "_latest.zip")
      | .other s => .error (.systemError ("Unsupported platform: " ++ s))
    match archive? with
    | .error e => (.error e, [])
    | .ok archive =>
      let mk : List InstAction :=
        if !(env.fs_exists sdk_dir) then [.makedirs sdk_dir] else []
      let url := "https://dl.google.com/android/repository/"
      let rest :=
        instStep (.download url archive) (env.download url archive) <|
        instStep (.extract archive) (env.extract archive) <|
        (.ok sdk_dir, [])
      (rest.1, mk ++ rest.2)

/-- Digits-only run continuing from the current position
(the rest of a regex `\d+` match). -/
def takeDigits : List Char → List Char
  | [] => []
  | c :: cs => if c.isDigit then c :: takeDigits cs else []

/-- `int(re.search(r'(\d+)', s).group(1))` (line 420): the first maximal
digit run of the string as a number, `none` when the string has no digit
(where Python raises `AttributeError` on `.group`). -/
def firstNumber : List Char → Option Nat
  | [] => none
  | c :: cs =>
    if c.isDigit then some (digitsToNat (c :: takeDigits cs))
    else firstNumber cs

/-- The NDK archive name computed at lines 434-455, given the host platform
class, the 64-bit-ness probe and the configured NDK version string, after
the numeric part `n` of the version has been extracted. -/
def ndkArchiveComputed (plat : HostPlatform) (is64 : Bool)
    (version : String) (n : Nat) : Except PyErr String :=
  match plat with
  | .win32 | .cygwin =>
    -- the Windows format string has no architecture placeholder
    .ok ("android-ndk-r" ++ version ++ "-windows.zip")
  | .darwin | .linux | .freebsd =>
    let pstr := match plat with
      | .darwin => "darwin"
      | _ => "linux"
    let ext :=
      if version = "10c" ∨ version = "10d" ∨ version = "10e" then "bin"
      else if n ≤ 10 then "tar.bz2"
      else "zip"
    let architecture := if is64 then "x86_64" else "x86"
    let architecture := if n ≥ 23 then "" else "-" ++ architecture
    .ok ("android-ndk-r" ++ version ++ "-" ++ pstr ++ architecture ++ "." ++ ext)
  | .other s => .error (.systemError ("Unsupported platform: " ++ s))

/-- The download base URL for the NDK (lines 458-461). -/
def ndkUrl (n : Nat) : String :=
  if n ≥ 11 then "https://dl.google.com/android/repository/"
  else "https://dl.google.com/android/ndk/"

/-- `TargetAndroid._install_android_ndk` (lines 413-477): return the NDK
directory at once when it exists; else extract the numeric part of the
version, build the platform/era-specific archive name, download it next to
the global platform directory, extract it and rename the unpacked
`android-ndk-r{version}` directory to the canonical NDK directory. -/
def _install_android_ndk (env : InstallerEnv) (plat : HostPlatform)
    (is64 : Bool) (ndk_version ndk_dir : String) :
    Except PyErr String × List InstAction :=
  if env.fs_exists ndk_dir then
    (.ok ndk_dir, [])
  else
    match firstNumber ndk_version.toList with
    | none => (.error .attributeError, [])
    | some n =>
      match ndkArchiveComputed plat is64 ndk_version n with
      | .error e => (.error e, [])
      | .ok archive =>
        let unpacked := "android-ndk-r" ++ ndk_version
        let url := ndkUrl n
        instStep (.download url archive) (env.download url archive) <|
        instStep (.extract archive) (env.extract archive) <|
        instStep (.rename unpacked ndk_dir) (env.rename unpacked ndk_dir) <|
        (.ok ndk_dir, [])

/-! ## Recommended NDK version (`p4a_recommended_android_ndk`, lines 160-194) -/

/-- `DEFAULT_ANDROID_NDK_VERSION` (line 21). -/
def DEFAULT_ANDROID_NDK_VERSION : String := "17c"

/-- `MSG_P4A_RECOMMENDED_NDK_ERROR` (lines 57-61). -/
def MSG_P4A_RECOMMENDED_NDK_ERROR : String :=
  "WARNING: Unable to find recommended Android NDK for current " ++
  "installation of python-for-android, defaulting to the default " ++
  "version r" ++ DEFAULT_ANDROID_NDK_VERSION

/-- The marker that starts a recommendation line (line 181). -/
def RECOMMENDED_NDK_MARKER : String := "RECOMMENDED_NDK_VERSION ="

/-- Strip the characters `'`, `"`, newline and space from a string
(the loop at lines 185-186: independent single-character removals). -/
def stripNdkChars (s : String) : String :=
  String.mk (s.data.filter fun c =>
    c ≠ '\'' && c ≠ '"' && c ≠ '\n' && c ≠ ' ')

/-- First line of the recommendations file starting with the marker
(the `for`/`break` at lines 180-193). -/
def findMarkerLine : List String → Option String
  | [] => none
  | l :: ls =>
    if strStartsWith l RECOMMENDED_NDK_MARKER then some l else findMarkerLine ls

/-- `TargetAndroid.p4a_recommended_android_ndk` (lines 160-194).
`cached` is the prior `self.p4a_recommended_ndk_version`; `rec_file` is the
recommendations file as its list of lines, `none` when `os.path.isfile` is
false.  Returns the produced version string, the new cached value, and the
list of error-level log messages emitted. -/
def p4a_recommended_android_ndk (cached : Option String)
    (rec_file : Option (List String)) :
    String × Option String × List String :=
  match cached with
  | some v => (v, cached, [])
  | none =>
    let ndk_version := DEFAULT_ANDROID_NDK_VERSION
    match rec_file with
    | none => (ndk_version, cached, [MSG_P4A_RECOMMENDED_NDK_ERROR])
    | some lines =>
      match findMarkerLine lines with
      | some line =>
        let v := stripNdkChars (strReplace line RECOMMENDED_NDK_MARKER "")
        (v, some v, [])
      | none => (ndk_version, cached, [])

/-! ## Persisted install cache and `_install_android_packages`
(lines 479-639) -/

/-- The persisted `buildozer.state` key/value store, an association list
with dict semantics. -/
abbrev StateDB := List (String × List String)

/-- `state.get(key, None)`. -/
def stateGet (st : StateDB) (key : String) : Option (List String) :=
  match st with
  | [] => none
  | (k, v) :: rest => if k = key then some v else stateGet rest key

/-- `state[key] = value`. -/
def stateSet (st : StateDB) (key : String) (value : List String) : StateDB :=
  match st with
  | [] => [(key, value)]
  | (k, v) :: rest =>
    if k = key then (k, value) :: rest else (k, v) :: stateSet rest key value

/-- The configuration values `_install_android_packages` reads. -/
structure AndroidConfig where
  /-- `self.android_api` (config `android.api`). -/
  android_api : String
  /-- `self.android_minapi` (config `android.minapi`). -/
  android_minapi : String
  /-- `self.android_ndk_version` (config `android.ndk`). -/
  android_ndk_version : String
  /-- `self.android_sdk_dir`. -/
  android_sdk_dir : String
  /-- `self.android_ndk_dir`. -/
  android_ndk_dir : String
  /-- config `android.skip_update`. -/
  skip_update : Bool

/-- The cache key `'android:sdk_installation'` (line 552). -/
def sdkInstallationKey : String := "android:sdk_installation"

/-- The `cache_value` list of lines 553-556. -/
def sdkCacheValue (cfg : AndroidConfig) : List String :=
  [cfg.android_api, cfg.android_minapi, cfg.android_ndk_version,
   cfg.android_sdk_dir, cfg.android_ndk_dir]

/-- Effectful operations and error-level logs of
`_install_android_packages`, recorded in traces. -/
inductive PkgAction where
  /-- `self._android_update_sdk(args)`. -/
  | updateSdk (args : String)
  /-- `self._sdkmanager('--list')`. -/
  | sdkList
  /-- `buildops.checkbin('Aidl', ...)`. -/
  | checkAidl
  /-- Running the `aidl` binary. -/
  | runAidl
  /-- `self._sdkmanager(f"platforms;android-{api}")`. -/
  | installPlatform (api : String)
  /-- `self.buildozer.state.sync()`. -/
  | syncState
  /-- `self.logger.error(msg)`. -/
  | logError (msg : String)
  deriving Repr, DecidableEq

/-- Oracles for one `_install_android_packages` run. -/
structure PkgEnv where
  /-- Outcome of `self._android_update_sdk(args)` for given arguments. -/
  update_sdk : String → Except PyErr Unit
  /-- Stdout lines of `self._sdkmanager('--list')`, or its exception. -/
  sdkmanager_list : Except PyErr (List String)
  /-- Entries of `{sdk_dir}/build-tools`, `none` when the directory does
  not exist (`_read_version_subdir`'s probe). -/
  build_tools_entries : Option (List String)
  /-- Outcome of `buildops.checkbin('Aidl', aidl_cmd)`. -/
  checkbin_aidl : Except PyErr Unit
  /-- `return_code` of running the aidl binary. -/
  aidl_returncode : Int
  /-- `buildops.file_exists(android_platform)` for the platforms dir. -/
  platform_exists : Bool
  /-- Outcome of `self._sdkmanager(f"platforms;android-{api}")`. -/
  sdkmanager_install : String → Except PyErr Unit

/-- `TargetAndroid._read_version_subdir` (lines 519-534) applied to the
entries of an optional directory: `parse("0")` when the directory is
missing or nothing in it parses, else the maximum parsed version. -/
def _read_version_subdir (entries : Option (List String)) : List Nat :=
  match entries with
  | none => [0]
  | some es =>
    match es.filterMap parseVersion with
    | [] => [0]
    | v :: vs => maxVer v vs

/-- `TargetAndroid._android_list_build_tools_versions` (lines 479-496)
applied to the stdout lines of `sdkmanager --list`: for every line whose
stripped form starts with `build-tools;`, take the first space-delimited
token, assert it contains exactly one `;`, and parse the part after it;
an assertion or parse failure raises. -/
def _android_list_build_tools_versions (lines : List String) :
    Except PyErr (List (List Nat)) :=
  match lines with
  | [] => .ok []
  | line :: rest =>
    let stripped := trimChars line.data
    if !(beginsWith stripped "build-tools;".data) then
      _android_list_build_tools_versions rest
    else
      let package_name := (splitOnChar ' ' stripped).headD []
      let parts := splitOnChar ';' package_name
      if parts.length ≠ 2 then .error .assertionError
      else
        match parseNatVersion (parts.getLastD []) with
        | none => .error .cmdError
        | some v =>
          (_android_list_build_tools_versions rest).map (fun vs => v :: vs)

/-- Sequence two traced steps: the second runs only when the first
succeeded; traces concatenate. -/
def pseq (first next : Except PyErr Unit × List PkgAction) :
    Except PyErr Unit × List PkgAction :=
  match first with
  | (.error e, t) => (.error e, t)
  | (.ok _, t) => (next.1, t ++ next.2)

/-- One traced oracle invocation. -/
def pcall (act : PkgAction) (res : Except PyErr Unit) :
    Except PyErr Unit × List PkgAction :=
  (res, [act])

/-- Step 1 of `_install_android_packages` (lines 560-574): unless
`android.skip_update` is set, install/update `platform-tools` and run
`--update`. -/
def pkgStepPlatformTools (cfg : AndroidConfig) (env : PkgEnv) :
    Except PyErr Unit × List PkgAction :=
  if !cfg.skip_update then
    pseq (pcall (.updateSdk "platform-tools") (env.update_sdk "platform-tools"))
         (pcall (.updateSdk "--update") (env.update_sdk "--update"))
  else
    (.ok (), [])

/-- Step 2 of `_install_android_packages` (lines 576-592): read installed
and available build-tools versions, log an error when none are available,
take `sorted(available)[-1]` (an `IndexError` on an empty list) and update
when the latest available exceeds the installed one. -/
def pkgStepBuildTools (cfg : AndroidConfig) (env : PkgEnv) :
    Except PyErr Unit × List PkgAction :=
  let installed := _read_version_subdir env.build_tools_entries
  match env.sdkmanager_list with
  | .error e => (.error e, [.sdkList])
  | .ok lines =>
    match _android_list_build_tools_versions lines with
    | .error e => (.error e, [.sdkList])
    | .ok available =>
      let errLog : List PkgAction :=
        if available.isEmpty then
          [.logError "Did not find any build tools available to download"]
        else []
      match sortedLast available with
      | .error e => (.error e, .sdkList :: errLog)
      | .ok latest =>
        if verLt installed latest then
          if !cfg.skip_update then
            pseq (.ok (), .sdkList :: errLog)
                 (pcall (.updateSdk ("build-tools;" ++ verToString latest))
                        (env.update_sdk ("build-tools;" ++ verToString latest)))
          else
            (.ok (), .sdkList :: errLog)
        else
          (.ok (), .sdkList :: errLog)

/-- `TargetAndroid._check_aidl` (lines 613-639): re-read the installed
build-tools version, check the aidl binary exists, run it, and raise
`BuildozerException` when its return code is not 1. -/
def _check_aidl (env : PkgEnv) : Except PyErr Unit × List PkgAction :=
  match env.checkbin_aidl with
  | .error e => (.error e, [.checkAidl])
  | .ok _ =>
    if env.aidl_returncode ≠ 1 then
      (.error .buildozerException,
       [.checkAidl, .runAidl, .logError "Aidl cannot be executed"])
    else
      (.ok (), [.checkAidl, .runAidl])

/-- Step 3 of `_install_android_packages` (lines 597-606): install the
platform for the configured API when its directory is missing, unless
`android.skip_update` is set. -/
def pkgStepPlatformApi (cfg : AndroidConfig) (env : PkgEnv) :
    Except PyErr Unit × List PkgAction :=
  if !env.platform_exists then
    if !cfg.skip_update then
      pcall (.installPlatform cfg.android_api)
            (env.sdkmanager_install ("platforms;android-" ++ cfg.android_api))
    else
      (.ok (), [])
  else
    (.ok (), [])

/-- The installation sequence of `_install_android_packages` after the
cache check (lines 560-608). -/
def pkgInstallSteps (cfg : AndroidConfig) (env : PkgEnv) :
    Except PyErr Unit × List PkgAction :=
  pseq (pkgStepPlatformTools cfg env)
    (pseq (pkgStepBuildTools cfg env)
      (pseq (_check_aidl env) (pkgStepPlatformApi cfg env)))

/-- Result of an `_install_android_packages` run: the returned value
(`some true` for the early cache-hit return, `none` for Python's implicit
`return None`) or the raised exception, the resulting persisted store, and
the trace. -/
structure PkgResult where
  outcome : Except PyErr (Option Bool)
  state : StateDB
  trace : List PkgAction
  deriving Repr

/-- The non-cache-hit branch of `_install_android_packages`: run the
installation sequence; only when all of it succeeds store the cache tuple
under `android:sdk_installation` and sync. -/
def pkgInstallRun (cfg : AndroidConfig) (env : PkgEnv) (st : StateDB) :
    PkgResult :=
  match pkgInstallSteps cfg env with
  | (.error e, t) => { outcome := .error e, state := st, trace := t }
  | (.ok _, t) =>
    { outcome := .ok none,
      state := stateSet st sdkInstallationKey (sdkCacheValue cfg),
      trace := t ++ [.syncState] }

/-- `TargetAndroid._install_android_packages` (lines 548-611): return
`True` at once when the persisted `android:sdk_installation` entry equals
the current configuration tuple, else run the installation sequence and
commit the tuple at the end. -/
def _install_android_packages (cfg : AndroidConfig) (env : PkgEnv)
    (st : StateDB) : PkgResult :=
  if stateGet st sdkInstallationKey = some (sdkCacheValue cfg) then
    { outcome := .ok (some true), state := st, trace := [] }
  else
    pkgInstallRun cfg env st

/-! ## Toolchain checkout manager (`_install_p4a`, lines 666-753)

The dependency-installation tail of `_install_p4a` (reading `setup.py` and
pip-installing its requirement list, lines 755-773) is outside this model,
which embeds the checkout-management portion. -/

/-- Git/filesystem operations performed by the checkout manager. -/
inductive GitAction where
  /-- `git config --get remote.origin.url` (query). -/
  | getRemoteUrl
  /-- `git branch -vv` (query). -/
  | getBranchVv
  /-- `buildops.rmdir(p4a_dir)`. -/
  | rmdir (dir : String)
  /-- `git clone -b {branch} --single-branch {url} {dirName}`. -/
  | clone (branch url dirName : String) (singleBranch : Bool)
  /-- `git clean -dxf`. -/
  | clean
  /-- `git rev-parse --abbrev-ref HEAD` (query). -/
  | revParseHead
  /-- `git pull`. -/
  | pull
  /-- `git fetch --tags origin {branch}:{branch}`. -/
  | fetch (branch : String)
  /-- `git checkout {branch}`. -/
  | checkout (branch : String)
  /-- `git reset --hard {commit}`. -/
  | reset (commit : String)
  deriving Repr, DecidableEq

/-- Configuration read by `_install_p4a`. -/
structure P4aConfig where
  /-- `p4a.source_dir` (`none` when unset/empty). -/
  source_dir : Option String
  /-- `p4a.url` (possibly derived from `p4a.fork`). -/
  p4a_url : String
  /-- `p4a.branch`. -/
  p4a_branch : String
  /-- `p4a.commit`. -/
  p4a_commit : String
  /-- `self.platform_update`. -/
  platform_update : Bool

/-- Oracles for an `_install_p4a` run: query results and outcomes of the
effectful operations. -/
structure P4aEnv where
  /-- `buildops.file_exists(p4a_dir)` at entry. -/
  checkout_exists : Bool
  /-- Stripped stdout of `git config --get remote.origin.url`. -/
  cur_url : String
  /-- `stdout.split()[1]` of `git branch -vv`: `none` when the output has
  fewer than two fields (Python raises `IndexError`). -/
  branch_vv_field : Option String
  /-- Stripped stdout of `git rev-parse --abbrev-ref HEAD`. -/
  current_branch : String
  /-- Outcome of each effectful operation. -/
  run : GitAction → Except PyErr Unit

/-- Record one effectful checkout operation; on failure the exception
propagates. -/
def gitStep (env : P4aEnv) (act : GitAction)
    (k : Except PyErr Unit × List GitAction) :
    Except PyErr Unit × List GitAction :=
  match env.run act with
  | .error e => (.error e, [act])
  | .ok _ => (k.1, act :: k.2)

/-- The `if p4a_commit != 'HEAD'` tail (lines 749-753). -/
def p4aCommitReset (cfg : P4aConfig) (env : P4aEnv) :
    Except PyErr Unit × List GitAction :=
  if cfg.p4a_commit ≠ "HEAD" then
    gitStep env (.reset cfg.p4a_commit) (.ok (), [])
  else
    (.ok (), [])

/-- Lines 711-753: clone when no checkout is present (`existsNow` reflects
the `buildops.file_exists(p4a_dir)` re-check after any deletion), else on a
platform update clean and pull (or fetch and checkout when the configured
branch is not the current one), then reset to a pinned commit. -/
def p4aCloneOrUpdate (cfg : P4aConfig) (env : P4aEnv) (existsNow : Bool) :
    Except PyErr Unit × List GitAction :=
  if !existsNow then
    gitStep env (.clone cfg.p4a_branch cfg.p4a_url "python-for-android" true)
      (p4aCommitReset cfg env)
  else if cfg.platform_update then
    gitStep env .clean <|
      if env.current_branch = cfg.p4a_branch then
        gitStep env .pull (p4aCommitReset cfg env)
      else
        gitStep env (.fetch cfg.p4a_branch)
          (gitStep env (.checkout cfg.p4a_branch) (p4aCommitReset cfg env))
  else
    p4aCommitReset cfg env

/-- The checkout-management portion of `TargetAndroid._install_p4a`
(lines 666-753).  With a `p4a.source_dir` override only existence is
checked (fatal when missing).  Otherwise, when a checkout exists, its
remote URL and branch are read and any mismatch with the configured
url/branch deletes the checkout; then a missing checkout is cloned
single-branch, or an existing one is updated. -/
def _install_p4a_checkout (cfg : P4aConfig) (env : P4aEnv)
    (p4a_dir : String) : Except PyErr Unit × List GitAction :=
  match cfg.source_dir with
  | some _ =>
    if !env.checkout_exists then (.error .buildozerException, [])
    else (.ok (), [])
  | none =>
    if env.checkout_exists then
      match env.branch_vv_field with
      | none => (.error .indexError, [.getRemoteUrl, .getBranchVv])
      | some cur_branch =>
        if env.cur_url ≠ cfg.p4a_url ∨ cur_branch ≠ cfg.p4a_branch then
          let rest :=
            gitStep env (.rmdir p4a_dir) (p4aCloneOrUpdate cfg env false)
          (rest.1, [.getRemoteUrl, .getBranchVv] ++ rest.2)
        else
          let rest := p4aCloneOrUpdate cfg env true
          (rest.1, [.getRemoteUrl, .getBranchVv] ++ rest.2)
    else
      p4aCloneOrUpdate cfg env false

/-! ## Claim-side definitions

The definitions below transcribe the words of spec claims (not the
source); the theorems compare them with the source-derived definitions
above. -/

/-- From the claim's words: a device-listing line excluded from serial
enumeration — empty, or starting with `*`, or starting with `List `. -/
def excludedLine (l : String) : Bool :=
  l = "" || strStartsWith l "*" || strStartsWith l "List "

/-- From the claim's words: the serials are the first whitespace-separated
field of every non-excluded listing line. -/
def serialsFromListing (lines : List String) : List String :=
  (lines.filter (fun l => !excludedLine l)).filterMap firstField

/-- From the claim's words: the NDK archive extension on non-Windows hosts
— `bin` for versions `10c`/`10d`/`10e`, `tar.bz2` for numeric major
version at most 10, and `zip` otherwise. -/
def ndkExtOfClaim (version : String) (n : Nat) : String :=
  if version = "10c" ∨ version = "10d" ∨ version = "10e" then "bin"
  else if n ≤ 10 then "tar.bz2"
  else "zip"

/-- From the claim's words: the `-x86`/`-x86_64` architecture suffix,
included for numeric major version below 23 and dropped otherwise. -/
def ndkSuffixOfClaim (is64 : Bool) (n : Nat) : String :=
  if n < 23 then (if is64 then "-x86_64" else "-x86") else ""

/-- The claim's full non-Windows NDK archive name: vendor base name and
platform tag with the claimed suffix and extension rules. -/
def ndkArchiveNameOfClaim (plat : HostPlatform) (is64 : Bool)
    (version : String) (n : Nat) : String :=
  "android-ndk-r" ++ version ++ "-" ++
    (if plat = .darwin then "darwin" else "linux") ++
    ndkSuffixOfClaim is64 n ++ "." ++ ndkExtOfClaim version n

/-! # Verified properties -/

/-- `check_p4a_sign_env` as the conjunction of the four presence checks. -/
theorem check_p4a_sign_env_eq (envHas : String → Bool) :
    check_p4a_sign_env envHas =
      (envHas "P4A_RELEASE_KEYALIAS" && envHas "P4A_RELEASE_KEYSTORE_PASSWD" &&
       envHas "P4A_RELEASE_KEYSTORE" && envHas "P4A_RELEASE_KEYALIAS_PASSWD") := by
  simp only [check_p4a_sign_env, List.foldl,
    show ("P4A_RELEASE_" ++ "KEYALIAS" : String) = "P4A_RELEASE_KEYALIAS" from rfl,
    show ("P4A_RELEASE_" ++ "KEYSTORE_PASSWD" : String) = "P4A_RELEASE_KEYSTORE_PASSWD" from rfl,
    show ("P4A_RELEASE_" ++ "KEYSTORE" : String) = "P4A_RELEASE_KEYSTORE" from rfl,
    show ("P4A_RELEASE_" ++ "KEYALIAS_PASSWD" : String) = "P4A_RELEASE_KEYALIAS_PASSWD" from rfl]
  cases envHas "P4A_RELEASE_KEYALIAS" <;>
    cases envHas "P4A_RELEASE_KEYSTORE_PASSWD" <;>
    cases envHas "P4A_RELEASE_KEYSTORE" <;>
    cases envHas "P4A_RELEASE_KEYALIAS_PASSWD" <;> rfl

/-- C10: `check_p4a_sign_env` is true exactly when all four
`P4A_RELEASE_*` variables are present in the environment, and
`get_release_mode` returns `"release"` exactly when the signing
environment is complete or the artifact format is `aab` or `aar`,
returning `"release-unsigned"` otherwise. -/
theorem C10_release_mode_and_sign_env (envHas : String → Bool) (fmt : String) :
    (check_p4a_sign_env envHas = true ↔
      (envHas "P4A_RELEASE_KEYALIAS" = true ∧
       envHas "P4A_RELEASE_KEYSTORE_PASSWD" = true ∧
       envHas "P4A_RELEASE_KEYSTORE" = true ∧
       envHas "P4A_RELEASE_KEYALIAS_PASSWD" = true)) ∧
    (get_release_mode envHas fmt = "release" ↔
      (check_p4a_sign_env envHas = true ∨ fmt = "aab" ∨ fmt = "aar")) ∧
    (get_release_mode envHas fmt = "release-unsigned" ↔
      ¬(check_p4a_sign_env envHas = true ∨ fmt = "aab" ∨ fmt = "aar")) := by
  have hmem : (["aab", "aar"].contains fmt) = true ↔ (fmt = "aab" ∨ fmt = "aar") := by
    simp [List.contains]
  have hcond : (check_p4a_sign_env envHas || ["aab", "aar"].contains fmt) = true ↔
      (check_p4a_sign_env envHas = true ∨ fmt = "aab" ∨ fmt = "aar") := by
    simp [Bool.or_eq_true, hmem]
  refine ⟨?_, ?_, ?_⟩
  · rw [check_p4a_sign_env_eq]
    simp [and_assoc]
  · unfold get_release_mode
    by_cases h : (check_p4a_sign_env envHas || ["aab", "aar"].contains fmt) = true
    · rw [if_pos h]
      simp [hcond.mp h]
    · rw [if_neg h]
      have hn : ¬(check_p4a_sign_env envHas = true ∨ fmt = "aab" ∨ fmt = "aar") :=
        fun hc => h (hcond.mpr hc)
      simp [hn]
  · unfold get_release_mode
    by_cases h : (check_p4a_sign_env envHas || ["aab", "aar"].contains fmt) = true
    · rw [if_pos h]
      simp [hcond.mp h]
    · rw [if_neg h]
      have hn : ¬(check_p4a_sign_env envHas = true ∨ fmt = "aab" ∨ fmt = "aar") :=
        fun hc => h (hcond.mpr hc)
      simp [hn]

/-- C5: each installer (`_install_apache_ant`, `_install_android_sdk`,
`_install_android_ndk`) returns the target directory immediately and
performs no download, extraction, rename or directory creation when the
target directory already exists. -/
theorem C5_installers_presence_idempotent (env : InstallerEnv)
    (plat : HostPlatform) (is64 : Bool)
    (ant_dir sdk_dir ndk_version ndk_dir : String)
    (hant : env.fs_exists ant_dir = true)
    (hsdk : env.fs_exists sdk_dir = true)
    (hndk : env.fs_exists ndk_dir = true) :
    _install_apache_ant env ant_dir = (.ok ant_dir, []) ∧
    _install_android_sdk env plat sdk_dir = (.ok sdk_dir, []) ∧
    _install_android_ndk env plat is64 ndk_version ndk_dir = (.ok ndk_dir, []) := by
  unfold _install_apache_ant _install_android_sdk _install_android_ndk
  rw [hant, hsdk, hndk]
  simp

/-- Witness for C5 at a concrete environment in which every directory
exists. -/
theorem C5_witness :
    _install_apache_ant
      ⟨fun _ => true, fun _ _ => .ok (), fun _ => .ok (), fun _ _ => .ok ()⟩
      "ant-dir" = (.ok "ant-dir", []) ∧
    _install_android_sdk
      ⟨fun _ => true, fun _ _ => .ok (), fun _ => .ok (), fun _ _ => .ok ()⟩
      .linux "sdk-dir" = (.ok "sdk-dir", []) ∧
    _install_android_ndk
      ⟨fun _ => true, fun _ _ => .ok (), fun _ => .ok (), fun _ _ => .ok ()⟩
      .linux true "25b" "ndk-dir" = (.ok "ndk-dir", []) :=
  C5_installers_presence_idempotent
    ⟨fun _ => true, fun _ _ => .ok (), fun _ => .ok (), fun _ _ => .ok ()⟩
    .linux true "ant-dir" "sdk-dir" "25b" "ndk-dir" rfl rfl rfl

/-- C6 counterexample: with an empty cache and a recommendations file that
exists but contains no `RECOMMENDED_NDK_VERSION =` line,
`p4a_recommended_android_ndk` falls back to the default without emitting
any warning, contrary to the claim that the fallback is accompanied by a
warning whether the file is missing or merely lacks the marker line. -/
theorem C6_counterexample :
    p4a_recommended_android_ndk none (some ["x"]) = ("17c", none, []) := rfl

/-- C6 (amended): `p4a_recommended_android_ndk` never fails — it returns
the cleaned `RECOMMENDED_NDK_VERSION` value when a marker line is present
and the fixed default `17c` otherwise — but the warning is emitted only
when the recommendations file is missing; when the file exists without the
marker line the fallback is silent. -/
theorem C6_recommended_ndk (rec_file : Option (List String)) :
    (rec_file = none →
      p4a_recommended_android_ndk none rec_file =
        (DEFAULT_ANDROID_NDK_VERSION, none, [MSG_P4A_RECOMMENDED_NDK_ERROR])) ∧
    (∀ lines line, rec_file = some lines → findMarkerLine lines = some line →
      p4a_recommended_android_ndk none rec_file =
        (stripNdkChars (strReplace line RECOMMENDED_NDK_MARKER ""),
         some (stripNdkChars (strReplace line RECOMMENDED_NDK_MARKER "")), [])) ∧
    (∀ lines, rec_file = some lines → findMarkerLine lines = none →
      p4a_recommended_android_ndk none rec_file =
        (DEFAULT_ANDROID_NDK_VERSION, none, [])) := by
  refine ⟨?_, ?_, ?_⟩
  · rintro rfl
    rfl
  · rintro lines line rfl h
    simp [p4a_recommended_android_ndk, h]
  · rintro lines rfl h
    simp [p4a_recommended_android_ndk, h]

/-- Witness for C6 at concrete inputs: a missing recommendations file, and
one holding a marker line. -/
theorem C6_witness :
    p4a_recommended_android_ndk none none =
      (DEFAULT_ANDROID_NDK_VERSION, none, [MSG_P4A_RECOMMENDED_NDK_ERROR]) ∧
    p4a_recommended_android_ndk none (some ["RECOMMENDED_NDK_VERSION = '25b'"]) =
      ("25b", some "25b", []) := by
  constructor
  · exact (C6_recommended_ndk none).1 rfl
  · have h := (C6_recommended_ndk (some ["RECOMMENDED_NDK_VERSION = '25b'"])).2.1
      ["RECOMMENDED_NDK_VERSION = '25b'"] "RECOMMENDED_NDK_VERSION = '25b'" rfl rfl
    exact h.trans rfl

/-- When every non-excluded listing line has a first field, the
enumeration loop computes exactly the claim's filter-and-project
description of the serial list. -/
theorem collectSerials_eq_listing :
    ∀ lines : List String,
      (∀ l ∈ lines, excludedLine l = false → (firstField l).isSome) →
      collectSerials lines = .ok (serialsFromListing lines) := by
  intro lines
  induction lines with
  | nil => intro _; rfl
  | cons l ls ih =>
    intro h
    have hd := h l (List.mem_cons_self _ _)
    have htl : ∀ x ∈ ls, excludedLine x = false → (firstField x).isSome :=
      fun x hx => h x (List.mem_cons_of_mem _ hx)
    have ihh := ih htl
    by_cases he : l = ""
    · subst he
      simpa [collectSerials, serialsFromListing, excludedLine] using ihh
    · by_cases hs : (strStartsWith l "*" || strStartsWith l "List ") = true
      · have hex : excludedLine l = true := by
          simp [excludedLine, he]
          simpa using hs
        simp only [collectSerials, if_neg he, hs, if_pos]
        rw [ihh]
        simp [serialsFromListing, hex]
      · have hex : excludedLine l = false := by
          simp [excludedLine, he]
          simpa using hs
        rcases hf : firstField l with _ | f
        · rw [hf] at hd
          simp [hex] at hd
        · simp only [collectSerials, if_neg he, hs, if_neg, Bool.false_eq_true]
          rw [hf, ihh]
          simp [serialsFromListing, hex, hf]
          rfl

/-- C7 counterexample: with `ANDROID_SERIAL` present in the environment
but set to the empty string, `serials` does not return its comma-split
value without invoking the bridge — the code tests Python truthiness
rather than presence, so it enumerates devices instead. -/
theorem C7_counterexample :
    serialsRun none ⟨some "", .ok []⟩ = (.ok [], some [], true) := rfl

/-- C7 (amended): `serials` prefers the override only when
`ANDROID_SERIAL` is set to a non-empty value, returning its comma-split
value without invoking the bridge; otherwise (unset or empty) every
bridge-listing line that is empty or starts with `*` or `List ` is
excluded and the first whitespace-separated field of each remaining line
is returned. -/
theorem C7_serial_resolution (env : SerialsEnv) (s : String)
    (lines : List String) :
    (env.android_serial = some s → s ≠ "" →
      serialsRun none env =
        (.ok ((splitOnChar ',' s.data).map String.mk), none, false)) ∧
    ((env.android_serial = none ∨ env.android_serial = some "") →
      env.adb_devices = .ok lines →
      (∀ l ∈ lines, excludedLine l = false → (firstField l).isSome) →
      serialsRun none env =
        (.ok (serialsFromListing lines),
         some (serialsFromListing lines), true)) := by
  constructor
  · intro ha hs
    simp [serialsRun, ha, hs]
  · intro ha hadb hwf
    have hc := collectSerials_eq_listing lines hwf
    rcases ha with ha | ha <;> simp [serialsRun, ha, hadb, hc]

/-- Witness for C7 at concrete inputs: a non-empty override, and an
enumeration over a listing with a header line. -/
theorem C7_witness :
    serialsRun none ⟨some "A,B", .ok []⟩ =
      (.ok ((splitOnChar ',' "A,B".data).map String.mk), none, false) ∧
    serialsRun none ⟨none, .ok ["List of devices attached", "serialX\tdevice"]⟩ =
      (.ok (serialsFromListing ["List of devices attached", "serialX\tdevice"]),
       some (serialsFromListing ["List of devices attached", "serialX\tdevice"]),
       true) :=
  ⟨(C7_serial_resolution ⟨some "A,B", .ok []⟩ "A,B" []).1 rfl (by decide),
   (C7_serial_resolution ⟨none, .ok ["List of devices attached", "serialX\tdevice"]⟩
      "" ["List of devices attached", "serialX\tdevice"]).2
      (Or.inl rfl) rfl (by decide)⟩

/-- C8 counterexample: a first `serials` call resolved from the
environment override leaves `_serials` unset, so a subsequent call (the
variable now unset) performs a bridge enumeration after all, contrary to
the claim that the set is computed at most once regardless of its
source. -/
theorem C8_counterexample :
    (serialsRun none ⟨some "A", .ok []⟩).2.1 = none ∧
    (serialsRun (serialsRun none ⟨some "A", .ok []⟩).2.1
        ⟨none, .ok ["serialB\tdevice"]⟩).2.2 = true := by
  exact ⟨rfl, rfl⟩

/-- C8 (amended): caching applies only to enumeration results — a
successful bridge enumeration stores its result in `_serials`, and once
`_serials` is populated every later call returns it unchanged without
invoking the bridge; an environment-override result is returned without
being cached. -/
theorem C8_serials_caching (env env₂ : SerialsEnv) (r : List String) :
    ((serialsRun none env).2.2 = true → (serialsRun none env).1 = .ok r →
      (serialsRun none env).2.1 = some r) ∧
    (serialsRun (some r) env₂ = (.ok r, some r, false)) ∧
    (∀ s, env.android_serial = some s → s ≠ "" →
      (serialsRun none env).2.1 = none) := by
  refine ⟨?_, rfl, ?_⟩
  · intro henum hok
    rcases ha : env.android_serial with _ | s
    · rcases hadb : env.adb_devices with e | lines
      · simp [serialsRun, ha, hadb] at hok
      · rcases hcol : collectSerials lines with e | serials
        · simp [serialsRun, ha, hadb, hcol] at hok
        · simp [serialsRun, ha, hadb, hcol] at hok ⊢
          exact hok
    · by_cases hs : s = ""
      · subst hs
        rcases hadb : env.adb_devices with e | lines
        · simp [serialsRun, ha, hadb] at hok
        · rcases hcol : collectSerials lines with e | serials
          · simp [serialsRun, ha, hadb, hcol] at hok
          · simp [serialsRun, ha, hadb, hcol] at hok ⊢
            exact hok
      · simp [serialsRun, ha, hs] at henum
  · intro s ha hs
    simp [serialsRun, ha, hs]

/-- Witness for C8 at a concrete enumeration and a concrete cached
value. -/
theorem C8_witness :
    (serialsRun none ⟨none, .ok ["serialC\tdevice"]⟩).2.1 = some ["serialC"] ∧
    serialsRun (some ["serialC"]) ⟨none, .ok []⟩ =
      (.ok ["serialC"], some ["serialC"], false) ∧
    (serialsRun none ⟨some "D", .ok []⟩).2.1 = none := by
  refine ⟨?_, ?_, ?_⟩
  · exact (C8_serials_caching ⟨none, .ok ["serialC\tdevice"]⟩ ⟨none, .ok []⟩
      ["serialC"]).1 rfl rfl
  · exact (C8_serials_caching ⟨none, .ok ["serialC\tdevice"]⟩ ⟨none, .ok []⟩
      ["serialC"]).2.1
  · exact (C8_serials_caching ⟨some "D", .ok []⟩ ⟨none, .ok []⟩ []).2.2 "D" rfl
      (by decide)

/-- C3: on non-Windows hosts the NDK archive name computed by
`_install_android_ndk` is a deterministic function of (OS, bit-ness,
version) matching the claim's extension and architecture-suffix rules, and
a miss-path run downloads and extracts exactly that archive and renames
the unpacked `android-ndk-r{version}` directory to the canonical NDK
directory. -/
theorem C3_ndk_archive_naming (env : InstallerEnv) (plat : HostPlatform)
    (is64 : Bool) (ndk_version ndk_dir : String) (n : Nat)
    (hplat : plat = .darwin ∨ plat = .linux ∨ plat = .freebsd)
    (hn : firstNumber ndk_version.toList = some n)
    (hmiss : env.fs_exists ndk_dir = false)
    (hdl : ∀ u a, env.download u a = .ok ())
    (hex : ∀ a, env.extract a = .ok ())
    (hrn : ∀ s d, env.rename s d = .ok ()) :
    ndkArchiveComputed plat is64 ndk_version n =
      .ok (ndkArchiveNameOfClaim plat is64 ndk_version n) ∧
    _install_android_ndk env plat is64 ndk_version ndk_dir =
      (.ok ndk_dir,
       [.download (ndkUrl n) (ndkArchiveNameOfClaim plat is64 ndk_version n),
        .extract (ndkArchiveNameOfClaim plat is64 ndk_version n),
        .rename ("android-ndk-r" ++ ndk_version) ndk_dir]) := by
  have hsuf : ndkSuffixOfClaim is64 n =
      (if n ≥ 23 then "" else "-" ++ (if is64 then "x86_64" else "x86")) := by
    unfold ndkSuffixOfClaim
    rcases Nat.lt_or_ge n 23 with h | h
    · have h1 : ¬ n ≥ 23 := by omega
      rw [if_pos h, if_neg h1]
      cases is64 <;> rfl
    · have h1 : ¬ n < 23 := by omega
      rw [if_neg h1, if_pos h]
  have harch : ndkArchiveComputed plat is64 ndk_version n =
      .ok (ndkArchiveNameOfClaim plat is64 ndk_version n) := by
    rcases hplat with h | h | h <;> subst h <;>
      simp [ndkArchiveComputed, ndkArchiveNameOfClaim, ndkExtOfClaim, hsuf]
  refine ⟨harch, ?_⟩
  simp only [_install_android_ndk, hmiss, hn, harch, Bool.false_eq_true,
    if_false]
  simp [instStep, hdl, hex, hrn]

/-- Witness for C3 on a 64-bit Linux host with NDK version `25b`. -/
theorem C3_witness :
    ndkArchiveComputed .linux true "25b" 25 =
      .ok (ndkArchiveNameOfClaim .linux true "25b" 25) ∧
    _install_android_ndk
      ⟨fun _ => false, fun _ _ => .ok (), fun _ => .ok (), fun _ _ => .ok ()⟩
      .linux true "25b" "ndk-dir" =
      (.ok "ndk-dir",
       [.download (ndkUrl 25) (ndkArchiveNameOfClaim .linux true "25b" 25),
        .extract (ndkArchiveNameOfClaim .linux true "25b" 25),
        .rename ("android-ndk-r" ++ "25b") "ndk-dir"]) :=
  C3_ndk_archive_naming
    ⟨fun _ => false, fun _ _ => .ok (), fun _ => .ok (), fun _ _ => .ok ()⟩
    .linux true "25b" "ndk-dir" 25 (Or.inr (Or.inl rfl)) rfl rfl
    (fun _ _ => rfl) (fun _ => rfl) (fun _ _ => rfl)

/-- C1: `_install_android_packages` returns `True` immediately — with the
persisted store untouched and no work recorded — exactly when the stored
`android:sdk_installation` entry equals the current configuration tuple;
with any other store content the early return is never taken. -/
theorem C1_cache_skip_iff (cfg : AndroidConfig) (env : PkgEnv) (st : StateDB) :
    (stateGet st sdkInstallationKey = some (sdkCacheValue cfg) →
      _install_android_packages cfg env st =
        { outcome := .ok (some true), state := st, trace := [] }) ∧
    (stateGet st sdkInstallationKey ≠ some (sdkCacheValue cfg) →
      (_install_android_packages cfg env st).outcome ≠ .ok (some true)) := by
  constructor
  · intro h
    simp [_install_android_packages, h]
  · intro h
    simp only [_install_android_packages, if_neg h]
    unfold pkgInstallRun
    rcases hsteps : pkgInstallSteps cfg env with ⟨r, t⟩
    cases r <;> simp

/-- Witness for C1: a store holding the current tuple, and an empty
store. -/
theorem C1_witness :
    _install_android_packages
      ⟨"31", "21", "25b", "sdk-dir", "ndk-dir", true⟩
      ⟨fun _ => .ok (), .ok [], none, .ok (), 1, true, fun _ => .ok ()⟩
      [(sdkInstallationKey,
        sdkCacheValue ⟨"31", "21", "25b", "sdk-dir", "ndk-dir", true⟩)] =
      { outcome := .ok (some true),
        state := [(sdkInstallationKey,
          sdkCacheValue ⟨"31", "21", "25b", "sdk-dir", "ndk-dir", true⟩)],
        trace := [] } ∧
    (_install_android_packages
      ⟨"31", "21", "25b", "sdk-dir", "ndk-dir", true⟩
      ⟨fun _ => .ok (), .ok [], none, .ok (), 1, true, fun _ => .ok ()⟩
      []).outcome ≠ .ok (some true) :=
  ⟨(C1_cache_skip_iff
      ⟨"31", "21", "25b", "sdk-dir", "ndk-dir", true⟩
      ⟨fun _ => .ok (), .ok [], none, .ok (), 1, true, fun _ => .ok ()⟩
      [(sdkInstallationKey,
        sdkCacheValue ⟨"31", "21", "25b", "sdk-dir", "ndk-dir", true⟩)]).1 rfl,
   (C1_cache_skip_iff
      ⟨"31", "21", "25b", "sdk-dir", "ndk-dir", true⟩
      ⟨fun _ => .ok (), .ok [], none, .ok (), 1, true, fun _ => .ok ()⟩
      []).2 (by decide)⟩

/-- C2: the persisted `android:sdk_installation` entry is written only
when the whole installation sequence succeeds: on a raised exception the
store is unchanged and a subsequent run with the same configuration takes
the full installation branch again; on success the configuration tuple is
committed. -/
theorem C2_commit_only_after_success (cfg : AndroidConfig) (env : PkgEnv)
    (st : StateDB) :
    (∀ e, (_install_android_packages cfg env st).outcome = .error e →
      (_install_android_packages cfg env st).state = st ∧
      ∀ env₂, _install_android_packages cfg env₂ st =
        pkgInstallRun cfg env₂ st) ∧
    ((_install_android_packages cfg env st).outcome = .ok none →
      (_install_android_packages cfg env st).state =
        stateSet st sdkInstallationKey (sdkCacheValue cfg)) := by
  by_cases h : stateGet st sdkInstallationKey = some (sdkCacheValue cfg)
  · constructor
    · intro e he
      simp [_install_android_packages, h] at he
    · intro hnone
      simp [_install_android_packages, h] at hnone
  · constructor
    · intro e he
      refine ⟨?_, fun env₂ => by simp [_install_android_packages, if_neg h]⟩
      simp only [_install_android_packages, if_neg h] at he ⊢
      unfold pkgInstallRun at he ⊢
      rcases hsteps : pkgInstallSteps cfg env with ⟨r, t⟩
      rw [hsteps] at he
      cases r <;> simp at he ⊢
    · intro hnone
      simp only [_install_android_packages, if_neg h] at hnone ⊢
      unfold pkgInstallRun at hnone ⊢
      rcases hsteps : pkgInstallSteps cfg env with ⟨r, t⟩
      rw [hsteps] at hnone
      cases r <;> simp at hnone ⊢

/-- Witness for C2: a run that raises `IndexError` (empty build-tools
listing) leaves the empty store empty, and a repeat run takes the full
installation branch. -/
theorem C2_witness :
    (_install_android_packages
        ⟨"31", "21", "25b", "sdk-dir", "ndk-dir", true⟩
        ⟨fun _ => .ok (), .ok [], none, .ok (), 1, true, fun _ => .ok ()⟩
        []).state = [] ∧
    _install_android_packages
        ⟨"31", "21", "25b", "sdk-dir", "ndk-dir", true⟩
        ⟨fun _ => .ok (), .ok ["build-tools;1.0"], some [], .ok (), 1, false,
         fun _ => .ok ()⟩ [] =
      pkgInstallRun
        ⟨"31", "21", "25b", "sdk-dir", "ndk-dir", true⟩
        ⟨fun _ => .ok (), .ok ["build-tools;1.0"], some [], .ok (), 1, false,
         fun _ => .ok ()⟩ [] :=
  ⟨((C2_commit_only_after_success
      ⟨"31", "21", "25b", "sdk-dir", "ndk-dir", true⟩
      ⟨fun _ => .ok (), .ok [], none, .ok (), 1, true, fun _ => .ok ()⟩
      []).1 .indexError rfl).1,
   ((C2_commit_only_after_success
      ⟨"31", "21", "25b", "sdk-dir", "ndk-dir", true⟩
      ⟨fun _ => .ok (), .ok [], none, .ok (), 1, true, fun _ => .ok ()⟩
      []).1 .indexError rfl).2
      ⟨fun _ => .ok (), .ok ["build-tools;1.0"], some [], .ok (), 1, false,
       fun _ => .ok ()⟩⟩

/-- C4 counterexample: when the package listing yields no parseable
build-tools versions, `_install_android_packages` logs the error but then
aborts with an `IndexError` (Python's `sorted([])[-1]`) instead of
proceeding non-fatally with a zero version. -/
theorem C4_counterexample :
    (_install_android_packages
        ⟨"30", "21", "23b", "sdk", "ndk", true⟩
        ⟨fun _ => .ok (), .ok ["no build tools in this listing"], some [],
         .ok (), 1, true, fun _ => .ok ()⟩ []).outcome =
      .error .indexError ∧
    PkgAction.logError "Did not find any build tools available to download" ∈
      (_install_android_packages
        ⟨"30", "21", "23b", "sdk", "ndk", true⟩
        ⟨fun _ => .ok (), .ok ["no build tools in this listing"], some [],
         .ok (), 1, true, fun _ => .ok ()⟩ []).trace := by
  constructor
  · rfl
  · decide

/-- C4 (amended): when the listing yields no parseable build-tools
versions, `_install_android_packages` logs the error and then raises
`IndexError` while selecting the latest available version, leaving the
persisted store unchanged; it does not continue with a zero version. -/
theorem C4_empty_build_tools_aborts (cfg : AndroidConfig) (env : PkgEnv)
    (st : StateDB) (lines : List String)
    (hmiss : stateGet st sdkInstallationKey ≠ some (sdkCacheValue cfg))
    (hstep1 : (pkgStepPlatformTools cfg env).1 = .ok ())
    (hlist : env.sdkmanager_list = .ok lines)
    (hempty : _android_list_build_tools_versions lines = .ok []) :
    (_install_android_packages cfg env st).outcome = .error .indexError ∧
    (_install_android_packages cfg env st).state = st ∧
    PkgAction.logError "Did not find any build tools available to download" ∈
      (_install_android_packages cfg env st).trace := by
  have hstep2 : pkgStepBuildTools cfg env =
      (.error .indexError,
       [.sdkList,
        .logError "Did not find any build tools available to download"]) := by
    unfold pkgStepBuildTools
    rw [hlist]
    simp [hempty, sortedLast, sortV]
  have hsteps : pkgInstallSteps cfg env =
      (.error .indexError,
       (pkgStepPlatformTools cfg env).2 ++
         [.sdkList,
          .logError "Did not find any build tools available to download"]) := by
    unfold pkgInstallSteps
    rcases h1 : pkgStepPlatformTools cfg env with ⟨r1, t1⟩
    rw [h1] at hstep1
    simp only at hstep1
    subst hstep1
    simp [pseq, hstep2]
  simp only [_install_android_packages, if_neg hmiss, pkgInstallRun, hsteps]
  simp

/-- Witness for C4 at a concrete configuration whose listing is empty. -/
theorem C4_witness :
    (_install_android_packages
        ⟨"31", "21", "25c", "sdk2", "ndk2", false⟩
        ⟨fun _ => .ok (), .ok [], some ["1.0"], .ok (), 1, false,
         fun _ => .ok ()⟩ []).outcome = .error .indexError ∧
    (_install_android_packages
        ⟨"31", "21", "25c", "sdk2", "ndk2", false⟩
        ⟨fun _ => .ok (), .ok [], some ["1.0"], .ok (), 1, false,
         fun _ => .ok ()⟩ []).state = [] ∧
    PkgAction.logError "Did not find any build tools available to download" ∈
      (_install_android_packages
        ⟨"31", "21", "25c", "sdk2", "ndk2", false⟩
        ⟨fun _ => .ok (), .ok [], some ["1.0"], .ok (), 1, false,
         fun _ => .ok ()⟩ []).trace :=
  C4_empty_build_tools_aborts
    ⟨"31", "21", "25c", "sdk2", "ndk2", false⟩
    ⟨fun _ => .ok (), .ok [], some ["1.0"], .ok (), 1, false, fun _ => .ok ()⟩
    [] [] (by decide) rfl rfl rfl

/-- An action found in a `gitStep` trace is the step's own action or comes
from the continuation. -/
theorem gitStep_mem (env : P4aEnv) (act : GitAction)
    (k : Except PyErr Unit × List GitAction) (a : GitAction) :
    a ∈ (gitStep env act k).2 → a = act ∨ a ∈ k.2 := by
  unfold gitStep
  rcases env.run act with e | u
  · intro h
    simp at h
    exact Or.inl h
  · intro h
    simp at h
    exact h

/-- The pinned-commit tail performs at most a `git reset`, never a
deletion. -/
theorem commitReset_no_rmdir (cfg : P4aConfig) (env : P4aEnv) (d : String) :
    GitAction.rmdir d ∉ (p4aCommitReset cfg env).2 := by
  intro hmem
  unfold p4aCommitReset at hmem
  by_cases hc : cfg.p4a_commit ≠ "HEAD"
  · rw [if_pos hc] at hmem
    rcases gitStep_mem _ _ _ _ hmem with h | h
    · simp at h
    · simp at h
  · rw [if_neg hc] at hmem
    simp at hmem

/-- On an existing checkout, the clone-or-update tail never deletes the
checkout directory. -/
theorem cloneOrUpdate_exists_no_rmdir (cfg : P4aConfig) (env : P4aEnv)
    (d : String) :
    GitAction.rmdir d ∉ (p4aCloneOrUpdate cfg env true).2 := by
  intro hmem
  unfold p4aCloneOrUpdate at hmem
  simp only [Bool.not_true, Bool.false_eq_true, if_false] at hmem
  by_cases hpu : cfg.platform_update = true
  · rw [if_pos hpu] at hmem
    rcases gitStep_mem _ _ _ _ hmem with h | h
    · simp at h
    · by_cases hbr : env.current_branch = cfg.p4a_branch
      · rw [if_pos hbr] at h
        rcases gitStep_mem _ _ _ _ h with h2 | h2
        · simp at h2
        · exact commitReset_no_rmdir cfg env d h2
      · rw [if_neg hbr] at h
        rcases gitStep_mem _ _ _ _ h with h2 | h2
        · simp at h2
        · rcases gitStep_mem _ _ _ _ h2 with h3 | h3
          · simp at h3
          · exact commitReset_no_rmdir cfg env d h3
  · rw [if_neg hpu] at hmem
    exact commitReset_no_rmdir cfg env d hmem

/-- C9: with no `p4a.source_dir` override and an existing checkout, any
mismatch between the checkout's remote url or current branch and the
configured ones deletes the whole checkout and performs a fresh
single-branch clone; when both match the checkout is never deleted. -/
theorem C9_checkout_mismatch_reclone (cfg : P4aConfig) (env : P4aEnv)
    (p4a_dir cur_branch : String)
    (hsrc : cfg.source_dir = none)
    (hex : env.checkout_exists = true)
    (hvv : env.branch_vv_field = some cur_branch) :
    ((env.cur_url ≠ cfg.p4a_url ∨ cur_branch ≠ cfg.p4a_branch) →
      env.run (.rmdir p4a_dir) = .ok () →
      ((_install_p4a_checkout cfg env p4a_dir).2).take 4 =
        [.getRemoteUrl, .getBranchVv, .rmdir p4a_dir,
         .clone cfg.p4a_branch cfg.p4a_url "python-for-android" true]) ∧
    (env.cur_url = cfg.p4a_url → cur_branch = cfg.p4a_branch →
      ∀ d, GitAction.rmdir d ∉ (_install_p4a_checkout cfg env p4a_dir).2) := by
  constructor
  · intro hmm hrm
    simp only [_install_p4a_checkout, hsrc, hex, hvv]
    rw [if_pos hmm]
    rcases hcl : env.run
        (.clone cfg.p4a_branch cfg.p4a_url "python-for-android" true)
      with e | u
    · simp [gitStep, hrm, p4aCloneOrUpdate, hcl, List.take]
    · simp [gitStep, hrm, p4aCloneOrUpdate, hcl, List.take]
  · intro hu hb d
    simp only [_install_p4a_checkout, hsrc, hex, hvv]
    have hcond : ¬(env.cur_url ≠ cfg.p4a_url ∨ cur_branch ≠ cfg.p4a_branch) := by
      push_neg
      exact ⟨hu, hb⟩
    rw [if_neg hcond]
    have hno := cloneOrUpdate_exists_no_rmdir cfg env d
    rcases hco : p4aCloneOrUpdate cfg env true with ⟨rc, tc⟩
    rw [hco] at hno
    intro hmem
    simp at hmem
    exact hno hmem

/-- Witness for C9: a url mismatch triggering deletion and re-clone, and a
matching configuration that never deletes. -/
theorem C9_witness :
    ((_install_p4a_checkout
        ⟨none, "https://url", "develop", "HEAD", false⟩
        ⟨true, "https://other", some "master", "master", fun _ => .ok ()⟩
        "p4a-dir").2).take 4 =
      [.getRemoteUrl, .getBranchVv, .rmdir "p4a-dir",
       .clone "develop" "https://url" "python-for-android" true] ∧
    GitAction.rmdir "p4a-dir" ∉
      (_install_p4a_checkout
        ⟨none, "https://url", "develop", "HEAD", false⟩
        ⟨true, "https://url", some "develop", "develop", fun _ => .ok ()⟩
        "p4a-dir").2 :=
  ⟨(C9_checkout_mismatch_reclone
      ⟨none, "https://url", "develop", "HEAD", false⟩
      ⟨true, "https://other", some "master", "master", fun _ => .ok ()⟩
      "p4a-dir" "master" rfl rfl rfl).1 (Or.inl (by decide)) rfl,
   (C9_checkout_mismatch_reclone
      ⟨none, "https://url", "develop", "HEAD", false⟩
      ⟨true, "https://url", some "develop", "develop", fun _ => .ok ()⟩
      "p4a-dir" "develop" rfl rfl rfl).2 rfl rfl "p4a-dir"⟩
